import Mathlib

/-!
Shallow embedding of the request-routing / generation orchestration core of a
conversational RAG backend (`app/agent/nodes.py`, `app/api/v1/endpoints/upload.py`),
together with theorems settling the frozen claims about it.

External backends (generation model, vector-store retriever, web-search tool,
document parser, embedding store) are opaque in the source; they are modelled as
function parameters, with `Except String` results modelling Python exceptions.
-/

namespace MMRag

/-- A chat message object (LangChain message): a role tag (`type` attribute,
`none` models an object lacking the attribute, probed via `hasattr(msg, 'type')`)
and text content. -/
structure Message where
  type : Option String
  content : String
deriving DecidableEq

/-- `AgentState`: the per-request state dict threaded through the graph.
Optional fields model keys that may be absent from the dict
(`state.get(...)` in the source). -/
structure AgentState where
  messages : List Message
  session_id : Option String
  use_rag : Option Bool
  system_prompt : Option String
  context : Option String
deriving DecidableEq

/-- A partial state update returned by a graph node (the dict a LangGraph node
returns): an optional new `context` value and a list of messages to append. -/
structure NodeUpdate where
  context : Option String := none
  messages : List Message := []
deriving DecidableEq

/-- Python truthiness of `state.get("session_id")`: falsy when the key is
absent (`None`) or the string is empty. -/
def sessionFalsy : Option String → Bool
  | none => true
  | some s => s == ""

/-- `check_for_rag` (nodes.py:100): inspects the `use_rag` flag
(`state.get("use_rag", False)`) and returns the routing string consumed by the
conditional edge router. It returns a string only, no state update. -/
def check_for_rag (state : AgentState) : String :=
  if state.use_rag.getD false then "rag_retrieval" else "generate_direct"

/-- The diagnostic context string `retrieve_from_rag` stores when no
session id is available. -/
def noSessionMsg : String := "Error: No session ID provided for document retrieval."

/-- `retrieve_from_rag` (nodes.py:117). `backend sid query` models
`vector_store.get_retriever(session_id=sid).invoke(query)` returning the
`page_content` of each retrieved document, or an exception. The result pairs
the node's state update with the list of backend invocations (session id,
query); `Except.error` models an exception escaping the node (the source has
no try/except here). Indexing `messages[-1]` on an empty list raises. -/
def retrieve_from_rag (backend : String → String → Except String (List String))
    (state : AgentState) : Except String (NodeUpdate × List (String × String)) :=
  match state.messages.getLast? with
  | none => .error "list index out of range"
  | some lastMsg =>
    let user_query := lastMsg.content
    if sessionFalsy state.session_id then
      .ok ({ context := some noSessionMsg }, [])
    else
      let sid := state.session_id.getD ""
      match backend sid user_query with
      | .ok docs =>
          .ok ({ context := some (String.intercalate "\n\n" docs) },
               [(sid, user_query)])
      | .error e => .error e

/-- Whether `needle` occurs at the start of `hay` (character lists). -/
def startsWithChars : List Char → List Char → Bool
  | _, [] => true
  | [], _ :: _ => false
  | c :: cs, d :: ds => c == d && startsWithChars cs ds

/-- Whether `needle` occurs anywhere in `hay` (character lists). -/
def containsChars : List Char → List Char → Bool
  | [], needle => needle.isEmpty
  | c :: t, needle => startsWithChars (c :: t) needle || containsChars t needle

/-- Substring containment test: `needle in hay` in Python. -/
def containsSub (hay needle : String) : Bool := containsChars hay.data needle.data

/-- `str.lower()` restricted to ASCII case mapping (every character of the
routing keywords is ASCII; Unicode case mapping beyond ASCII is not
modelled). -/
def pyLower (s : String) : String := String.mk (s.data.map Char.toLower)

/-- `route_to_llm` (nodes.py:36): case-insensitive keyword classifier on the
last message's content. Returns `none` when `messages` is empty (the `[-1]`
index raises). Note the source's default branch returns the literal
string `"ginini"`. -/
def route_to_llm (state : AgentState) : Option String :=
  match state.messages.getLast? with
  | none => none
  | some m =>
    let lastmessage := m.content
    if containsSub (pyLower lastmessage) "creative" || containsSub (pyLower lastmessage) "write" then
      some "gemini"
    else if containsSub (pyLower lastmessage) "code" || containsSub (pyLower lastmessage) "python" then
      some "groq"
    else
      some "ginini"

/-- The diagnostic context string `run_web_search` stores when the search tool
is unavailable (no API key). -/
def webUnavailableMsg : String :=
  "Web search is not available. Please provide a TAVILY_API_KEY in your environment variables."

/-- `run_web_search` (nodes.py:148). `searchTool` models
`web_search.get_web_search_tool()`: `none` when the API key is missing,
otherwise a callable from the query to the search result (or an exception).
The whole tool invocation, including the `messages[-1]` indexing, sits inside
the `try` block, so every exception there is converted into a
`"Web search failed: ..."` context string; the outer `Except` models an
exception escaping the node. -/
def run_web_search (searchTool : Option (String → Except String String))
    (state : AgentState) : Except String NodeUpdate :=
  match searchTool with
  | none => .ok { context := some webUnavailableMsg }
  | some tool =>
    let tryBody : Except String String :=
      match state.messages.getLast? with
      | none => .error "list index out of range"
      | some m => tool m.content
    match tryBody with
    | .ok search_results => .ok { context := some search_results }
    | .error e => .ok { context := some ("Web search failed: " ++ e) }

/-- The `ChatGoogleGenerativeAI` configuration object: model name, sampling
temperature, and the system-message conversion flag (nodes.py:26, 29). -/
structure ChatGoogleGenerativeAI where
  model : String
  temperature : ℚ
  convert_system_message_to_human : Bool := false
deriving DecidableEq

/-- `llm_gemini` (nodes.py:26): the deterministic, temperature-0 configuration.
The model name comes from the `GEMINI_MODEL` environment variable with default
`"gemini-1.5-pro"`; it is a parameter here. -/
def llm_gemini (gemini_model : String) : ChatGoogleGenerativeAI :=
  { model := gemini_model, temperature := 0 }

/-- `llm_gemini_rag` (nodes.py:29): the creative, temperature-0.7 configuration
with `convert_system_message_to_human=True`. -/
def llm_gemini_rag (gemini_model : String) : ChatGoogleGenerativeAI :=
  { model := gemini_model, temperature := 0.7, convert_system_message_to_human := true }

/-- An entry of the list handed to `llm.invoke`: either an original LangChain
message object or a `(role, content)` tuple built by the node. -/
inductive ChatEntry where
  | msg (m : Message) : ChatEntry
  | pair (role content : String) : ChatEntry
deriving DecidableEq

/-- Result of a generation node: which LLM configuration was invoked, the
message sequence it was invoked with, and the node's state update. -/
structure GenResult where
  invokedLLM : ChatGoogleGenerativeAI
  invokedMessages : List ChatEntry
  update : NodeUpdate
deriving DecidableEq

/-- The default persona used when the state carries no `system_prompt`
(`state.get("system_prompt", "You are a helpful AI assistant.")`). -/
def defaultSystemPrompt : String := "You are a helpful AI assistant."

/-- Everything of the context-grounded f-string (nodes.py:173) that precedes
the interpolated `context`, including the literal indentation of the
triple-quoted source. -/
def ragPromptPre (user_system_prompt : String) : String :=
  user_system_prompt ++
  "\n\n    Use the following document snippets as your primary source of knowledge to answer the user\x27s question. The snippets are from a document the user just uploaded.\n\n    If the user\x27s question is general, like \"what is this document about?\" or \"summarize this file\", provide a concise summary of the provided context.\n\n    If the user asks a specific question, answer it directly using only the information in the snippets.\n\n    If the snippets do not contain the answer to a specific question, state that the provided document doesn\x27t seem to contain that information.\n\n    DOCUMENT SNIPPETS:\n    ---\n    "

/-- The part of the f-string between the interpolated `context` and the
interpolated `user_query` (closing snippet delimiter, question header, opening
quote). -/
def ragPromptMid : String := "\n    ---\n\n    USER\x27S QUESTION:\n    \""

/-- The part of the f-string after the interpolated `user_query` (closing
quote and trailing indentation before the closing triple quote). -/
def ragPromptPost : String := "\"\n    "

/-- The full context-grounded prompt f-string of `generate_with_context`. -/
def ragPrompt (user_system_prompt context user_query : String) : String :=
  ragPromptPre user_system_prompt ++ context ++ ragPromptMid ++ user_query ++ ragPromptPost

/-- `generate_with_context` (nodes.py:161): builds the context-grounded prompt,
replaces the last message with a `("user", prompt)` tuple, and invokes
`llm_gemini` (the temperature-0 configuration — nodes.py:198) on the adjusted
sequence. `gen cfg msgs` models `cfg.invoke(msgs).content`; the response is an
AIMessage (role tag `"ai"`). Returns `none` when `messages` is empty (the
`[-1]` index raises). -/
def generate_with_context (gemini_model : String)
    (gen : ChatGoogleGenerativeAI → List ChatEntry → String)
    (state : AgentState) : Option GenResult :=
  match state.messages.getLast? with
  | none => none
  | some lastMsg =>
    let user_query := lastMsg.content
    let context := state.context.getD ""
    let user_system_prompt := state.system_prompt.getD defaultSystemPrompt
    let prompt := ragPrompt user_system_prompt context user_query
    let messages_for_llm :=
      state.messages.dropLast.map ChatEntry.msg ++ [ChatEntry.pair "user" prompt]
    let response := gen (llm_gemini gemini_model) messages_for_llm
    some { invokedLLM := llm_gemini gemini_model
           invokedMessages := messages_for_llm
           update := { messages := [{ type := some "ai", content := response }] } }

/-- `generate_direct` (nodes.py:201): prepends a `("system", system_prompt)`
tuple, maps every existing message to a `(role, content)` tuple — the role is
`msg.type` when the object has that attribute, `"user"` otherwise — and
invokes `llm_gemini` on the result. -/
def generate_direct (gemini_model : String)
    (gen : ChatGoogleGenerativeAI → List ChatEntry → String)
    (state : AgentState) : GenResult :=
  let user_system_prompt := state.system_prompt.getD defaultSystemPrompt
  let messages_for_llm :=
    ChatEntry.pair "system" user_system_prompt ::
      state.messages.map (fun msg => ChatEntry.pair (msg.type.getD "user") msg.content)
  let response := gen (llm_gemini gemini_model) messages_for_llm
  { invokedLLM := llm_gemini gemini_model
    invokedMessages := messages_for_llm
    update := { messages := [{ type := some "ai", content := response }] } }

/-- Applying a node's partial update to the state: a returned `context` key
overwrites the field, and returned messages are appended (the `add_messages`
reducer of the graph state). -/
def applyUpdate (s : AgentState) (u : NodeUpdate) : AgentState :=
  { s with
    context := match u.context with
               | some c => some c
               | none => s.context
    messages := s.messages ++ u.messages }

/-- Modelled from the spec: the compiled routing graph (`create_agent_graph`
in `app/agent/graph.py` is not among the sources). Per the spec the graph is
`entry → route_check → {retrieve_context | generate_direct} → end`, with the
edge selected by `check_for_rag`'s return string and the RAG branch continuing
through `generate_with_context`; `entry` and `route_check` leave the state
unchanged. The result carries the final state and the list of retrieval
backend invocations made during the traversal. -/
def run_graph (gemini_model : String)
    (retriever : String → String → Except String (List String))
    (gen : ChatGoogleGenerativeAI → List ChatEntry → String)
    (s0 : AgentState) : Except String (AgentState × List (String × String)) :=
  if check_for_rag s0 = "rag_retrieval" then
    match retrieve_from_rag retriever s0 with
    | .error e => .error e
    | .ok (u, calls) =>
      let s1 := applyUpdate s0 u
      match generate_with_context gemini_model gen s1 with
      | none => .error "list index out of range"
      | some r => .ok (applyUpdate s1 r.update, calls)
  else
    let r := generate_direct gemini_model gen s0
    .ok (applyUpdate s0 r.update, [])

/-- `UPLOAD_DIR` (upload.py:18): the dedicated temporary-uploads directory. -/
def UPLOAD_DIR : String := "temp_uploads"

/-- `MAX_FILE_SIZE` (upload.py:46): 50 MB in bytes. -/
def MAX_FILE_SIZE : Nat := 50 * 1024 * 1024

/-- Models the Python f-string piece `{len(file_content) / (1024*1024):.1f}`:
the byte count divided by 2^20, rendered with one decimal digit. Rounding is
half-up on the exact quotient; CPython formats the binary double with
round-half-even, which differs only on exact-tie quotients. -/
def fmtMB (bytes : Nat) : String :=
  let tenths := (bytes * 10 + 524288) / 1048576
  toString (tenths / 10) ++ "." ++ toString (tenths % 10)

/-- The basename of a POSIX path, as characters: the suffix after the last
`'/'` (the whole string when there is no separator). -/
def pyBasename (cs : List Char) : List Char :=
  (cs.reverse.takeWhile (fun c => c != '/')).reverse

/-- The extension of a basename, as characters: from its last dot onward —
empty when there is no dot, or when every character before that dot is itself
a dot (CPython skips leading dots: `.bashrc` has no extension). -/
def pyExtOfBase (base : List Char) : List Char :=
  if (base.reverse.takeWhile (fun c => c != '.')).length = base.length then []
  else if (base.take
      (base.length - (base.reverse.takeWhile (fun c => c != '.')).length - 1)).any
      (fun c => c != '.') then
    '.' :: (base.reverse.takeWhile (fun c => c != '.')).reverse
  else []

/-- `os.path.splitext(p)[1]` on POSIX: the extension of the basename of `p`. -/
def splitextExt (p : String) : String :=
  String.mk (pyExtOfBase (pyBasename p.data))

/-- `os.path.join(a, b)` on POSIX for a one-step join: `b` replaces `a` when
absolute, otherwise it is appended with a separator (here `a` is the constant
`UPLOAD_DIR`, which does not end in a slash). -/
def osPathJoin (a b : String) : String :=
  if b.data.head? = some '/' then b else a ++ "/" ++ b

/-- The temporary path the upload handler writes to (upload.py:58):
`os.path.join(UPLOAD_DIR, f"{uuid.uuid4()}{file_extension}")`, the fresh
UUID string being a parameter. -/
def upload_path (uuid : String) (filename : String) : String :=
  osPathJoin UPLOAD_DIR (uuid ++ splitextExt filename)

/-- Outcome of the upload handler: the success JSON body, or a raised
`HTTPException` with status code and detail message. -/
inductive UploadOutcome where
  | success (filename : String) (chunks_added : Nat) (message : String)
  | httpError (code : Nat) (detail : String)
deriving DecidableEq

/-- Observable result of one run of the upload handler: its outcome, the
invocations of the document parser and of the vector-store add operation, and
the final resource state — whether the temp file still exists after the
handler completes and whether the upload stream was closed. -/
structure UploadResult where
  outcome : UploadOutcome
  parserCalls : List (String × String) := []
  embedCalls : List (List String × String) := []
  tempFileFinal : Bool := false
  streamClosed : Bool := false
deriving DecidableEq

/-- `upload_file` (upload.py:22). The uploaded byte string is modelled by its
length `file_content` — the handler inspects only `len(file_content)`; the
bytes themselves flow only into the temp file, which the parser oracle reads
by path. `parse path ext` models `document_parser.parse_file`, `embed chunks
sid` models `vector_store.add_documents_to_store`; `Except.error` models an
exception. The `finally` block removes the temp file when it exists and closes
the stream; the two validation rejections are raised before the `try`, so no
temp file has been created there and the stream is not closed by the handler. -/
def upload_file (uuid : String)
    (parse : String → String → Except String (List String))
    (embed : List String → String → Except String Unit)
    (filename : Option String) (file_content : Nat) (session_id : String) :
    UploadResult :=
  if (filename.getD "") = "" then
    { outcome := .httpError 400 "No file name provided." }
  else if file_content > MAX_FILE_SIZE then
    { outcome := .httpError 400
        ("File too large. Maximum size allowed is 50MB. Your file is " ++
          fmtMB file_content ++ "MB.") }
  else
    match parse (upload_path uuid (filename.getD "")) (splitextExt (filename.getD "")) with
    | .error e =>
      { outcome := .httpError 400
          ("Could not parse the file \x27" ++ filename.getD "" ++
            "\x27. The file might be corrupted or in an unsupported format. Error: " ++ e)
        parserCalls := [(upload_path uuid (filename.getD ""), splitextExt (filename.getD ""))]
        streamClosed := true }
    | .ok document_chunks =>
      if document_chunks.isEmpty then
        { outcome := .httpError 400
            ("Could not extract any text content from the file: " ++ filename.getD "" ++
              ". The file might be empty or contain only images.")
          parserCalls := [(upload_path uuid (filename.getD ""), splitextExt (filename.getD ""))]
          streamClosed := true }
      else
        match embed document_chunks session_id with
        | .error e =>
          { outcome := .httpError 500 ("Failed to create embeddings for the document. " ++ e)
            parserCalls := [(upload_path uuid (filename.getD ""), splitextExt (filename.getD ""))]
            embedCalls := [(document_chunks, session_id)]
            streamClosed := true }
        | .ok _ =>
          { outcome := .success (filename.getD "") document_chunks.length
              "File processed and added to the knowledge base successfully."
            parserCalls := [(upload_path uuid (filename.getD ""), splitextExt (filename.getD ""))]
            embedCalls := [(document_chunks, session_id)]
            streamClosed := true }


/-! ## Theorems settling the claims -/

/-- C1: `check_for_rag` returns `"rag_retrieval"` exactly when the `use_rag`
flag is true (a missing flag counts as false) and `"generate_direct"`
otherwise; it returns only a routing string consumed by edge selection, and on
the spec-modelled graph a request with `use_rag` false runs `generate_direct`
on the untouched state and makes no retrieval-backend call. -/
theorem check_for_rag_routing (gemini_model : String)
    (retriever : String → String → Except String (List String))
    (gen : ChatGoogleGenerativeAI → List ChatEntry → String)
    (s : AgentState) :
    (check_for_rag s = "rag_retrieval" ↔ s.use_rag.getD false = true) ∧
    (check_for_rag s = "generate_direct" ↔ s.use_rag.getD false = false) ∧
    (s.use_rag.getD false = false →
      run_graph gemini_model retriever gen s =
        .ok (applyUpdate s (generate_direct gemini_model gen s).update, [])) := by
  refine ⟨?_, ?_, ?_⟩
  · cases h : s.use_rag.getD false <;> simp [check_for_rag, h]
  · cases h : s.use_rag.getD false <;> simp [check_for_rag, h]
  · intro h
    have hc : check_for_rag s = "generate_direct" := by simp [check_for_rag, h]
    unfold run_graph
    rw [if_neg (by rw [hc]; decide)]

/-- Concrete state for the C1 witness. -/
def stC1 : AgentState where
  messages := [{ type := some "human", content := "Hello" }]
  session_id := some "s1"
  use_rag := some false
  system_prompt := none
  context := none

/-- Closed instance of `check_for_rag_routing`: a request with
`use_rag = some false` routes to `generate_direct` and the traversal makes no
retrieval call. -/
theorem check_for_rag_routing_witness :
    (check_for_rag stC1 = "generate_direct") ∧
    (run_graph "gemini-1.5-pro" (fun _ _ => .ok []) (fun _ _ => "reply") stC1 =
      .ok (applyUpdate stC1
            (generate_direct "gemini-1.5-pro" (fun _ _ => "reply") stC1).update, [])) :=
  ⟨(check_for_rag_routing "gemini-1.5-pro" (fun _ _ => .ok []) (fun _ _ => "reply")
      stC1).2.1.mpr rfl,
   (check_for_rag_routing "gemini-1.5-pro" (fun _ _ => .ok []) (fun _ _ => "reply")
      stC1).2.2 rfl⟩

/-- C2: for a request with `use_rag` true: with an absent or empty
`session_id`, `retrieve_from_rag` stores the fixed diagnostic string in
`context` and performs no backend call; with a non-empty `session_id`, it
invokes the backend exactly once with that id and the latest message's text,
and stores the returned snippets joined with a blank-line separator. -/
theorem retrieve_from_rag_spec
    (retr : String → String → Except String (List String))
    (s : AgentState) (lastMsg : Message)
    (hlast : s.messages.getLast? = some lastMsg)
    (_hrag : s.use_rag.getD false = true) :
    (sessionFalsy s.session_id = true →
      retrieve_from_rag retr s = .ok ({ context := some noSessionMsg }, [])) ∧
    (∀ sid docs, s.session_id = some sid → sid ≠ "" →
      retr sid lastMsg.content = .ok docs →
      retrieve_from_rag retr s =
        .ok ({ context := some (String.intercalate "\n\n" docs) },
             [(sid, lastMsg.content)])) := by
  constructor
  · intro hfal
    unfold retrieve_from_rag
    rw [hlast]
    simp [hfal]
  · intro sid docs hsid hne hretr
    have hfal : sessionFalsy (some sid) = false := beq_eq_false_iff_ne.mpr hne
    unfold retrieve_from_rag
    rw [hlast, hsid]
    simp [hfal, hretr]

/-- Concrete state for the C2 witness, with session id `"s1"`. -/
def stC2a : AgentState where
  messages := [{ type := some "human", content := "Summarize this" }]
  session_id := some "s1"
  use_rag := some true
  system_prompt := none
  context := none

/-- Concrete state for the C2 witness, with empty session id. -/
def stC2b : AgentState where
  messages := [{ type := some "human", content := "Summarize this" }]
  session_id := some ""
  use_rag := some true
  system_prompt := none
  context := none

/-- Closed instance of `retrieve_from_rag_spec`: a backend returning snippets
`"A"` and `"B"` for session `"s1"` yields context `"A\n\nB"` and exactly one
call; with an empty session id the context is the diagnostic string and no
call is made. -/
theorem retrieve_from_rag_spec_witness :
    (retrieve_from_rag (fun _ _ => .ok ["A", "B"]) stC2a =
      .ok ({ context := some "A\n\nB" }, [("s1", "Summarize this")])) ∧
    (retrieve_from_rag (fun _ _ => .ok ["A", "B"]) stC2b =
      .ok ({ context := some noSessionMsg }, [])) :=
  ⟨(retrieve_from_rag_spec (fun _ _ => .ok ["A", "B"]) stC2a
      { type := some "human", content := "Summarize this" } rfl rfl).2
      "s1" ["A", "B"] rfl (by decide) rfl,
   (retrieve_from_rag_spec (fun _ _ => .ok ["A", "B"]) stC2b
      { type := some "human", content := "Summarize this" } rfl rfl).1 rfl⟩

/-- C3: the context-grounded prompt is the literal template with the raw
`context` and `user_query` embedded between their delimiters (the prompt is
exactly prefix ++ context ++ middle ++ query ++ suffix for the fixed template
pieces), and the assembled prompt replaces the final turn — the sequence sent
to the model is all messages but the last, followed by one `("user", prompt)`
entry, with total length unchanged. -/
theorem generate_with_context_prompt (gemini_model : String)
    (gen : ChatGoogleGenerativeAI → List ChatEntry → String)
    (s : AgentState) (lastMsg : Message)
    (hlast : s.messages.getLast? = some lastMsg) :
    ∃ r, generate_with_context gemini_model gen s = some r ∧
      r.invokedMessages =
        s.messages.dropLast.map ChatEntry.msg ++
          [ChatEntry.pair "user"
            (ragPromptPre (s.system_prompt.getD defaultSystemPrompt) ++
              s.context.getD "" ++ ragPromptMid ++ lastMsg.content ++ ragPromptPost)] ∧
      r.invokedMessages.length = s.messages.length := by
  have hne : s.messages ≠ [] := by
    intro hn
    rw [hn] at hlast
    cases hlast
  unfold generate_with_context
  rw [hlast]
  refine ⟨_, rfl, rfl, ?_⟩
  have hpos : 0 < s.messages.length := List.length_pos.mpr hne
  simp [List.length_dropLast]
  omega

/-- Concrete state for the C3 witness: a two-message history with context. -/
def stC3 : AgentState where
  messages := [{ type := some "human", content := "earlier turn" },
               { type := some "human", content := "What is X?" }]
  session_id := some "s1"
  use_rag := some true
  system_prompt := some "SYS"
  context := some "A\n\nB"

/-- Closed instance of `generate_with_context_prompt` on `stC3`. -/
theorem generate_with_context_prompt_witness :
    ∃ r, generate_with_context "gemini-1.5-pro" (fun _ _ => "reply") stC3 = some r ∧
      r.invokedMessages =
        stC3.messages.dropLast.map ChatEntry.msg ++
          [ChatEntry.pair "user"
            (ragPromptPre "SYS" ++ "A\n\nB" ++ ragPromptMid ++ "What is X?" ++ ragPromptPost)] ∧
      r.invokedMessages.length = stC3.messages.length :=
  generate_with_context_prompt "gemini-1.5-pro" (fun _ _ => "reply") stC3
    { type := some "human", content := "What is X?" } rfl

/-- Concrete state for C4: a RAG request whose context has been retrieved. -/
def stC4 : AgentState where
  messages := [{ type := some "human", content := "Summarize this" }]
  session_id := some "s1"
  use_rag := some true
  system_prompt := none
  context := some "A\n\nB"

/-- C4 counterexample: on a concrete state, `generate_with_context` invokes
the `llm_gemini` configuration, whose temperature is 0 — not the creative
temperature-0.7 configuration `llm_gemini_rag`, which is a different
configuration. -/
theorem generate_with_context_temp0_cex :
    ∃ r, generate_with_context "gemini-1.5-pro" (fun _ _ => "reply") stC4 = some r ∧
      r.invokedLLM = llm_gemini "gemini-1.5-pro" ∧
      r.invokedLLM.temperature = 0 ∧
      (llm_gemini_rag "gemini-1.5-pro").temperature = 7/10 ∧
      r.invokedLLM ≠ llm_gemini_rag "gemini-1.5-pro" := by
  refine ⟨_, rfl, rfl, rfl, ?_, ?_⟩
  · norm_num [llm_gemini_rag]
  · intro h
    have := congrArg ChatGoogleGenerativeAI.temperature h
    norm_num [llm_gemini, llm_gemini_rag] at this

/-- C4 amended: `generate_with_context` invokes the deterministic
temperature-0 configuration `llm_gemini` (not the creative one) with the full
adjusted message sequence, and its update carries exactly one assistant
(`"ai"`) message containing the backend's result for that sequence, and no
context change. -/
theorem generate_with_context_invokes (gemini_model : String)
    (gen : ChatGoogleGenerativeAI → List ChatEntry → String)
    (s : AgentState) (lastMsg : Message)
    (hlast : s.messages.getLast? = some lastMsg) :
    ∃ r, generate_with_context gemini_model gen s = some r ∧
      r.invokedLLM = llm_gemini gemini_model ∧
      (llm_gemini gemini_model).temperature = 0 ∧
      r.update.messages =
        [{ type := some "ai", content := gen (llm_gemini gemini_model) r.invokedMessages }] ∧
      r.update.context = none := by
  unfold generate_with_context
  rw [hlast]
  exact ⟨_, rfl, rfl, rfl, rfl, rfl⟩

/-- Closed instance of `generate_with_context_invokes` on `stC4`. -/
theorem generate_with_context_invokes_witness :
    ∃ r, generate_with_context "gemini-1.5-pro" (fun _ _ => "reply") stC4 = some r ∧
      r.invokedLLM = llm_gemini "gemini-1.5-pro" ∧
      (llm_gemini "gemini-1.5-pro").temperature = 0 ∧
      r.update.messages =
        [{ type := some "ai",
           content := (fun _ _ => "reply") (llm_gemini "gemini-1.5-pro") r.invokedMessages }] ∧
      r.update.context = none :=
  generate_with_context_invokes "gemini-1.5-pro" (fun _ _ => "reply") stC4
    { type := some "human", content := "Summarize this" } rfl

/-- C5: the sequence `generate_direct` sends to the backend has the unmodified
system instruction as its first, system-role entry, and after it every
original message in original order, each mapped to a `(role, content)` pair
with content unchanged, the role being the message's own role tag when the
object has one and `"user"` otherwise. -/
theorem generate_direct_prompt_shape (gemini_model : String)
    (gen : ChatGoogleGenerativeAI → List ChatEntry → String)
    (s : AgentState) :
    (generate_direct gemini_model gen s).invokedMessages.head? =
      some (ChatEntry.pair "system" (s.system_prompt.getD defaultSystemPrompt)) ∧
    (generate_direct gemini_model gen s).invokedMessages.tail.length = s.messages.length ∧
    ∀ i : Nat, (generate_direct gemini_model gen s).invokedMessages.tail[i]? =
      (s.messages[i]?).map
        (fun msg => ChatEntry.pair (msg.type.getD "user") msg.content) := by
  refine ⟨rfl, by simp [generate_direct], fun i => ?_⟩
  simp [generate_direct]

/-- Concrete state for C6: non-empty session and one message. -/
def stC6 : AgentState where
  messages := [{ type := some "human", content := "q" }]
  session_id := some "s1"
  use_rag := some true
  system_prompt := none
  context := none

/-- C6 counterexample: an exception of the retrieval backend is NOT caught
inside `retrieve_from_rag` — it escapes the node. -/
theorem retrieve_from_rag_raises_cex :
    retrieve_from_rag (fun _ _ => .error "boom") stC6 = .error "boom" := rfl

/-- C6 amended: the web-search node never raises past its boundary — for
every tool and state it returns a normal update, and a backend exception
becomes the descriptive `"Web search failed: ..."` context string — whereas
the retrieval node, which validates `session_id` locally, propagates a
retrieval-backend exception past its boundary. -/
theorem glue_nodes_exception_boundary
    (searchTool : Option (String → Except String String))
    (tool : String → Except String String)
    (retr : String → String → Except String (List String))
    (s : AgentState) (lastMsg : Message) (e : String)
    (hlast : s.messages.getLast? = some lastMsg) :
    (∃ u, run_web_search searchTool s = .ok u) ∧
    (tool lastMsg.content = .error e →
      run_web_search (some tool) s =
        .ok { context := some ("Web search failed: " ++ e) }) ∧
    (sessionFalsy s.session_id = false →
      retr (s.session_id.getD "") lastMsg.content = .error e →
      retrieve_from_rag retr s = .error e) := by
  refine ⟨?_, ?_, ?_⟩
  · cases searchTool with
    | none => exact ⟨_, rfl⟩
    | some t =>
      cases ht : t lastMsg.content with
      | ok r =>
        exact ⟨{ context := some r }, by simp [run_web_search, hlast, ht]⟩
      | error e₀ =>
        exact ⟨{ context := some ("Web search failed: " ++ e₀) },
               by simp [run_web_search, hlast, ht]⟩
  · intro htool
    simp [run_web_search, hlast, htool]
  · intro hfal hre
    unfold retrieve_from_rag
    rw [hlast]
    simp [hfal, hre]

/-- Closed instance of `glue_nodes_exception_boundary`: a throwing search tool
yields a context string and a normal return, while the same exception from the
retrieval backend escapes `retrieve_from_rag`. -/
theorem glue_nodes_exception_boundary_witness :
    (∃ u, run_web_search (some fun _ => .error "boom") stC6 = .ok u) ∧
    (run_web_search (some fun _ => .error "boom") stC6 =
      .ok { context := some ("Web search failed: " ++ "boom") }) ∧
    (retrieve_from_rag (fun _ _ => .error "boom") stC6 = .error "boom") :=
  ⟨(glue_nodes_exception_boundary (some fun _ => .error "boom") (fun _ => .error "boom")
      (fun _ _ => .error "boom") stC6 { type := some "human", content := "q" } "boom" rfl).1,
   (glue_nodes_exception_boundary (some fun _ => .error "boom") (fun _ => .error "boom")
      (fun _ _ => .error "boom") stC6 { type := some "human", content := "q" } "boom" rfl).2.1 rfl,
   (glue_nodes_exception_boundary (some fun _ => .error "boom") (fun _ => .error "boom")
      (fun _ _ => .error "boom") stC6 { type := some "human", content := "q" } "boom" rfl).2.2
      rfl rfl⟩

/-- Concrete state for C7: a message containing no routing keyword. -/
def stC7 : AgentState where
  messages := [{ type := some "human", content := "hello" }]
  session_id := some "s1"
  use_rag := some false
  system_prompt := none
  context := none

/-- C7 (code bug): on a message with no routing keyword the classifier's
default branch returns the literal `"ginini"` — a misspelling that is neither
of the two provider identifiers `"gemini"` and `"groq"`. -/
theorem route_to_llm_default_misspelled :
    route_to_llm stC7 = some "ginini" ∧
    "ginini" ≠ "gemini" ∧ "ginini" ≠ "groq" :=
  ⟨rfl, by decide, by decide⟩

/-- C8: an upload whose content exceeds 50 MB is rejected with a 400
client-error response whose message states the file's size and the 50 MB
limit, and neither the document parser nor the vector-store embedding
operation is invoked. -/
theorem upload_oversize_rejected (uuid : String)
    (parse : String → String → Except String (List String))
    (embed : List String → String → Except String Unit)
    (filename : String) (size : Nat) (sid : String)
    (hname : filename ≠ "") (hsize : MAX_FILE_SIZE < size) :
    upload_file uuid parse embed (some filename) size sid =
      { outcome := .httpError 400
          ("File too large. Maximum size allowed is 50MB. Your file is " ++
            fmtMB size ++ "MB.")
        parserCalls := []
        embedCalls := []
        tempFileFinal := false
        streamClosed := false } := by
  unfold upload_file
  rw [if_neg (by simpa using hname), if_pos hsize]

/-- Closed instance of `upload_oversize_rejected`: a 60 MB upload is rejected
with the size-and-limit message before any parser or embedding call. -/
theorem upload_oversize_rejected_witness :
    upload_file "u0" (fun _ _ => .ok ["c"]) (fun _ _ => .ok ())
        (some "big.pdf") (60 * 1024 * 1024) "s1" =
      { outcome := .httpError 400
          ("File too large. Maximum size allowed is 50MB. Your file is " ++
            fmtMB (60 * 1024 * 1024) ++ "MB.")
        parserCalls := []
        embedCalls := []
        tempFileFinal := false
        streamClosed := false } :=
  upload_oversize_rejected "u0" (fun _ _ => .ok ["c"]) (fun _ _ => .ok ())
    "big.pdf" (60 * 1024 * 1024) "s1" (by decide) (by decide)

/-- C9: after the upload handler completes the temporary file is absent on
every branch, and on every branch that reaches the handler's try/finally block
(i.e. whenever validation passes: a filename is present and the content is
within the size limit — success, parse failure, empty extraction, and
embedding failure all lie past that point) the upload stream has been
closed. -/
theorem upload_temp_cleanup (uuid : String)
    (parse : String → String → Except String (List String))
    (embed : List String → String → Except String Unit)
    (filename : Option String) (file_content : Nat) (sid : String) :
    (upload_file uuid parse embed filename file_content sid).tempFileFinal = false ∧
    ((filename.getD "") ≠ "" → file_content ≤ MAX_FILE_SIZE →
      (upload_file uuid parse embed filename file_content sid).streamClosed = true) := by
  constructor
  · unfold upload_file
    split
    · rfl
    · split
      · rfl
      · split
        · rfl
        · split
          · rfl
          · split
            · rfl
            · rfl
  · intro h1 h2
    unfold upload_file
    rw [if_neg h1, if_neg (by omega)]
    split
    · rfl
    · split
      · rfl
      · split
        · rfl
        · rfl

/-- Closed instance of `upload_temp_cleanup`: on a parse-failing upload the
temp file is gone and the stream is closed. -/
theorem upload_temp_cleanup_witness :
    (upload_file "u0" (fun _ _ => .error "bad parse") (fun _ _ => .ok ())
      (some "doc.pdf") 1024 "s1").tempFileFinal = false ∧
    (upload_file "u0" (fun _ _ => .error "bad parse") (fun _ _ => .ok ())
      (some "doc.pdf") 1024 "s1").streamClosed = true :=
  ⟨(upload_temp_cleanup "u0" (fun _ _ => .error "bad parse") (fun _ _ => .ok ())
      (some "doc.pdf") 1024 "s1").1,
   (upload_temp_cleanup "u0" (fun _ _ => .error "bad parse") (fun _ _ => .ok ())
      (some "doc.pdf") 1024 "s1").2 (by decide) (by decide)⟩

/-- Every character of a POSIX basename differs from the separator. -/
theorem mem_pyBasename {c : Char} {cs : List Char} (h : c ∈ pyBasename cs) :
    c ≠ '/' := by
  unfold pyBasename at h
  rw [List.mem_reverse] at h
  simpa using List.mem_takeWhile_imp h

/-- Every character of the extension of a basename is a dot or a character of
the basename. -/
theorem mem_pyExtOfBase {c : Char} {base : List Char} (h : c ∈ pyExtOfBase base) :
    c = '.' ∨ c ∈ base := by
  unfold pyExtOfBase at h
  split at h
  · cases h
  · split at h
    · rcases List.mem_cons.mp h with h | h
      · exact Or.inl h
      · refine Or.inr ?_
        rw [List.mem_reverse] at h
        have hsub := (List.takeWhile_prefix (fun c => c != '.')).subset h
        rwa [List.mem_reverse] at hsub
    · cases h

/-- Characters a `uuid.uuid4()` string consists of: lowercase hex digits and
dashes. -/
def isUuidChar (c : Char) : Bool :=
  ('0' ≤ c && c ≤ '9') || ('a' ≤ c && c ≤ 'f') || c == '-'

/-- C10: the upload write path is the uploads directory joined with a basename
that is exactly the fresh UUID followed by the extension CPython extracts from
the client filename; no character of that basename is a path separator, so the
client filename cannot redirect the write location (its only influence is the
extension). -/
theorem upload_path_confined (uuid filename : String)
    (huuid : ∀ c ∈ uuid.data, isUuidChar c = true) :
    upload_path uuid filename =
      UPLOAD_DIR ++ "/" ++ (uuid ++ splitextExt filename) ∧
    ∀ c ∈ (uuid ++ splitextExt filename).data, c ≠ '/' := by
  have hext : ∀ c ∈ (splitextExt filename).data, c ≠ '/' := by
    intro c hc
    rcases mem_pyExtOfBase hc with h | h
    · subst h
      decide
    · exact mem_pyBasename h
  have hmem : ∀ c ∈ (uuid ++ splitextExt filename).data, c ≠ '/' := by
    intro c hc
    rw [String.data_append] at hc
    rcases List.mem_append.mp hc with h | h
    · intro heq
      subst heq
      exact absurd (huuid _ h) (by decide)
    · exact hext c h
  refine ⟨?_, hmem⟩
  have hhead : ¬ ((uuid ++ splitextExt filename).data.head? = some '/') := by
    intro hh
    cases hdata : (uuid ++ splitextExt filename).data with
    | nil => rw [hdata] at hh; cases hh
    | cons a t =>
      rw [hdata] at hh
      have ha : a = '/' := by simpa using hh
      exact hmem a (by rw [hdata]; exact List.mem_cons_self a t) ha
  unfold upload_path osPathJoin
  rw [if_neg hhead]

/-- Closed instance of `upload_path_confined`: a traversal-shaped client
filename contributes only its `.txt` extension to the write path. -/
theorem upload_path_confined_witness :
    upload_path "3f2504e0-4f89-11d3-9a0c-0305e82c3301" "../../etc/passwd.txt" =
      UPLOAD_DIR ++ "/" ++
        ("3f2504e0-4f89-11d3-9a0c-0305e82c3301" ++ splitextExt "../../etc/passwd.txt") ∧
    ∀ c ∈ ("3f2504e0-4f89-11d3-9a0c-0305e82c3301" ++
        splitextExt "../../etc/passwd.txt").data, c ≠ '/' :=
  upload_path_confined "3f2504e0-4f89-11d3-9a0c-0305e82c3301" "../../etc/passwd.txt"
    (by decide)

end MMRag
